import Mathlib

/-!
Verification development for app.py of the DeployedAIAgentDashboard
repository.  The sheet loader get_google_sheet and the query interpreter
extract_info are embedded shallowly: pandas data frames become lists of
named columns whose cells are optional strings (an absent cell models a
null), Python floats become exact rationals, and each Python try/except
boundary becomes an Except value that the embedded function converts to
the same user-visible string as the source.
-/

set_option allowUnsafeReducibility true in
attribute [semireducible] Rat.add Rat.mul Rat.inv Rat.sub Rat.ofScientific

instance {ε α : Type} [DecidableEq ε] [DecidableEq α] : DecidableEq (Except ε α) := fun x y =>
  match x, y with
  | Except.ok a, Except.ok b =>
    if h : a = b then Decidable.isTrue (congrArg Except.ok h)
    else Decidable.isFalse (fun he => h (Except.ok.inj he))
  | Except.ok _, Except.error _ => Decidable.isFalse (fun he => Except.noConfusion he)
  | Except.error _, Except.ok _ => Decidable.isFalse (fun he => Except.noConfusion he)
  | Except.error a, Except.error b =>
    if h : a = b then Decidable.isTrue (congrArg Except.error h)
    else Decidable.isFalse (fun he => h (Except.error.inj he))

/-- Python's str.lower on the ASCII fragment the prompts use, written over
the character list of the string. -/
def pyLower (s : String) : String := String.mk (s.data.map Char.toLower)

/-- Boolean test for the whitespace characters the float builtin strips. -/
def isSpaceChar (c : Char) : Bool :=
  c == ' ' || c == '\t' || c == '\n' || c == '\r' || c == '\x0b' || c == '\x0c'

/-- Whitespace stripping done by the float builtin before parsing. -/
def pyStrip (s : String) : String :=
  String.mk (((s.data.dropWhile isSpaceChar).reverse.dropWhile isSpaceChar).reverse)

/-- Decides whether the first character list is an initial segment of the
second one. -/
def leadsWith : List Char → List Char → Bool
  | [], _ => true
  | _ :: _, [] => false
  | a :: as, b :: bs => a == b && leadsWith as bs

/-- Decides whether the first character list occurs contiguously inside the
second one. -/
def occursIn (needle : List Char) : List Char → Bool
  | [] => needle.isEmpty
  | b :: bs => leadsWith needle (b :: bs) || occursIn needle bs

/-- Python's substring test k in p on strings, as used by the keyword
cascade of extract_info (src/app.py lines 47-68). -/
def pyIn (k p : String) : Bool := occursIn k.data p.data

/-- Numeric value of one decimal digit character. -/
def digitVal (c : Char) : Nat := c.toNat - 48

/-- Accumulating decimal evaluation of a digit list. -/
def digitsToNat (acc : Nat) : List Char → Nat
  | [] => acc
  | c :: cs => digitsToNat (acc * 10 + digitVal c) cs

/-- Boolean test that every character of the list is a decimal digit. -/
def allDigits (cs : List Char) : Bool := cs.all (fun c => c.isDigit)

/-- Unsigned decimal mantissa of a Python float literal: digits with an
optional fractional part, at least one digit overall. -/
def parseMantissa (cs : List Char) : Option ℚ :=
  let ip := cs.takeWhile (fun c => c.isDigit)
  let rest := cs.dropWhile (fun c => c.isDigit)
  match rest with
  | [] => if ip.isEmpty then none else some ((digitsToNat 0 ip : ℕ) : ℚ)
  | '.' :: fp =>
    if allDigits fp && !(ip.isEmpty && fp.isEmpty) then
      some (((digitsToNat 0 ip : ℕ) : ℚ) + ((digitsToNat 0 fp : ℕ) : ℚ) / (10 : ℚ) ^ fp.length)
    else none
  | _ => none

/-- Signed decimal exponent of a Python float literal. -/
def parseExpPart (cs : List Char) : Option ℤ :=
  match cs with
  | '+' :: ds => if ds.isEmpty || !allDigits ds then none else some ((digitsToNat 0 ds : ℕ) : ℤ)
  | '-' :: ds => if ds.isEmpty || !allDigits ds then none else some (-((digitsToNat 0 ds : ℕ) : ℤ))
  | ds => if ds.isEmpty || !allDigits ds then none else some ((digitsToNat 0 ds : ℕ) : ℤ)

/-- Splits a float literal at the exponent marker, when one is present. -/
def splitAtExp (cs : List Char) : List Char × Option (List Char) :=
  let m := cs.takeWhile (fun c => c != 'e' && c != 'E')
  match cs.dropWhile (fun c => c != 'e' && c != 'E') with
  | [] => (m, none)
  | _ :: ex => (m, some ex)

/-- Unsigned Python float literal with an optional exponent. -/
def parseFloatCore (cs : List Char) : Option ℚ :=
  match splitAtExp cs with
  | (m, none) => parseMantissa m
  | (m, some ex) => do
    let mv ← parseMantissa m
    let ev ← parseExpPart ex
    pure (mv * (10 : ℚ) ^ ev)

/-- Python float literal with an optional leading sign. -/
def parseSignedFloat (cs : List Char) : Option ℚ :=
  match cs with
  | '+' :: rest => parseFloatCore rest
  | '-' :: rest => (parseFloatCore rest).map Neg.neg
  | rest => parseFloatCore rest

/-- Python's float builtin on a string, idealised over exact rationals:
surrounding whitespace is ignored and a decimal literal with optional
sign, fraction and exponent is accepted; anything else fails with the
ValueError message that pandas astype(float) surfaces (src/app.py lines
48-69).  The inf, nan and underscore-separated spellings accepted by
CPython are outside the vocabulary this repository's data uses and are
not modelled. -/
def pyFloat (s : String) : Except String ℚ :=
  match parseSignedFloat (pyStrip s).data with
  | some q => Except.ok q
  | none => Except.error ("could not convert string to float: '" ++ s ++ "'")

/-- First k decimal digits of the fractional part of a rational in [0, 1). -/
def fracDigitsAux : ℚ → Nat → List Char
  | _, 0 => []
  | q, k + 1 =>
    let q10 := q * 10
    let d := q10.floor
    Char.ofNat (48 + d.toNat) :: fracDigitsAux (q10 - (d : ℚ)) k

/-- Drops trailing zero characters. -/
def trimZeros (cs : List Char) : List Char :=
  (cs.reverse.dropWhile (fun c => c == '0')).reverse

/-- Rendering of a float value inside a Python f-string, idealised over
exact rationals: integral values print with a trailing ".0" exactly as
CPython renders them, and non-integral values print as a truncated
decimal expansion (CPython's shortest-round-trip repr of a binary float
has no exact rational counterpart). -/
def pyFloatRepr (q : ℚ) : String :=
  if q.den = 1 then toString q.num ++ ".0"
  else
    (if q < 0 then "-" else "") ++ toString ((abs q).floor) ++ "." ++
      String.mk (trimZeros (fracDigitsAux (abs q - ((abs q).floor : ℚ)) 17))

/-- Rendering of a possibly-missing float: pandas reductions return NaN on
empty input and CPython prints NaN as "nan". -/
def fmtOpt : Option ℚ → String
  | none => "nan"
  | some q => pyFloatRepr q

/-- One cell of a data frame: a string value or a null. -/
abbrev Cell := Option String

/-- A pandas data frame as produced by the ingestion paths of app.py: an
ordered list of named columns of cells. -/
abbrev Table := List (String × List Cell)

/-- Column selection df[column] (src/app.py lines 48-69): the first column
carrying the name, or the KeyError whose str() rendering is the column
name wrapped in single quotes. -/
def dfGet (df : Table) (column : String) : Except String (List Cell) :=
  match df.find? (fun kv => kv.1 == column) with
  | some kv => Except.ok kv.2
  | none => Except.error ("'" ++ column ++ "'")

/-- Conversion of one cell by Series.astype(float): a null becomes NaN and
a string is parsed by the float builtin. -/
def cellToFloat : Cell → Except String (Option ℚ)
  | none => Except.ok none
  | some s => (pyFloat s).map some

/-- Series.astype(float) on an object column: cells convert in order and
the first failing cell raises the ValueError. -/
def astypeFloat : List Cell → Except String (List (Option ℚ))
  | [] => Except.ok []
  | c :: cs =>
    match cellToFloat c with
    | Except.error e => Except.error e
    | Except.ok v =>
      match astypeFloat cs with
      | Except.error e => Except.error e
      | Except.ok vs => Except.ok (v :: vs)

/-- Valid (non-NaN) entries of a float series, in order. -/
def dropNa (xs : List (Option ℚ)) : List ℚ := xs.filterMap id

/-- Series.min with pandas' default skipna: NaN on an all-missing series. -/
def pdMin (xs : List (Option ℚ)) : Option ℚ :=
  match dropNa xs with
  | [] => none
  | y :: ys => some (ys.foldl min y)

/-- Series.max with pandas' default skipna: NaN on an all-missing series. -/
def pdMax (xs : List (Option ℚ)) : Option ℚ :=
  match dropNa xs with
  | [] => none
  | y :: ys => some (ys.foldl max y)

/-- Series.sum with pandas' default skipna: zero on an all-missing series. -/
def pdSum (xs : List (Option ℚ)) : ℚ := (dropNa xs).sum

/-- Series.mean with pandas' default skipna: NaN on an all-missing series. -/
def pdMean (xs : List (Option ℚ)) : Option ℚ :=
  let l := dropNa xs
  if l.length = 0 then none else some (l.sum / (l.length : ℚ))

/-- Series.median: middle entry of the sorted valid values, or the mean of
the two middle entries when their number is even; NaN when there are
none. -/
def pdMedian (xs : List (Option ℚ)) : Option ℚ :=
  let l := List.insertionSort (· ≤ ·) (dropNa xs)
  let n := l.length
  if n = 0 then none
  else if n % 2 = 1 then some (l.getD (n / 2) 0)
  else some ((l.getD (n / 2 - 1) 0 + l.getD (n / 2) 0) / 2)

/-- Series.var with pandas' default ddof of one: the sum of squared
deviations from the mean divided by one less than the number of valid
values, NaN when fewer than two values remain. -/
def pdVar (xs : List (Option ℚ)) : Option ℚ :=
  let l := dropNa xs
  if l.length < 2 then none
  else some ((l.map (fun x => (x - l.sum / (l.length : ℚ)) ^ 2)).sum / ((l.length : ℚ) - 1))

/-- Series.count: the number of non-null cells. -/
def pdCount (cells : List Cell) : Nat := (cells.filterMap id).length

/-- The eight statistical operations recognised by extract_info. -/
inductive StatOp where
  | min | max | mean | sum | count | median | std | var
deriving DecidableEq

/-- The keyword cascade of extract_info (src/app.py lines 47-70) as a
selector: the chain of membership tests over the lower-cased prompt,
first match winning. -/
def dispatch (p : String) : Option StatOp :=
  if pyIn "minimum" p || pyIn "lowest" p then some StatOp.min
  else if pyIn "maximum" p || pyIn "highest" p then some StatOp.max
  else if pyIn "average" p || pyIn "mean" p then some StatOp.mean
  else if pyIn "sum" p || pyIn "total" p then some StatOp.sum
  else if pyIn "count" p || pyIn "number of" p then some StatOp.count
  else if pyIn "median" p then some StatOp.median
  else if pyIn "standard deviation" p || pyIn "std dev" p then some StatOp.std
  else if pyIn "variance" p then some StatOp.var
  else none

/-- Body of one keyword branch of extract_info: look the column up,
coerce it when the operation needs floats, compute the statistic and
build the exact f-string of the source (src/app.py lines 48-70). -/
def applyOp (sqrtF : ℚ → ℚ) (df : Table) (column : String) : StatOp → Except String String
  | StatOp.min => (dfGet df column).bind fun cells => (astypeFloat cells).map fun xs =>
      "The minimum value in column '" ++ column ++ "' is " ++ fmtOpt (pdMin xs) ++ "."
  | StatOp.max => (dfGet df column).bind fun cells => (astypeFloat cells).map fun xs =>
      "The maximum value in column '" ++ column ++ "' is " ++ fmtOpt (pdMax xs) ++ "."
  | StatOp.mean => (dfGet df column).bind fun cells => (astypeFloat cells).map fun xs =>
      "The average value in column '" ++ column ++ "' is " ++ fmtOpt (pdMean xs) ++ "."
  | StatOp.sum => (dfGet df column).bind fun cells => (astypeFloat cells).map fun xs =>
      "The sum of values in column '" ++ column ++ "' is " ++ pyFloatRepr (pdSum xs) ++ "."
  | StatOp.count => (dfGet df column).map fun cells =>
      "The count of values in column '" ++ column ++ "' is " ++ toString (pdCount cells) ++ "."
  | StatOp.median => (dfGet df column).bind fun cells => (astypeFloat cells).map fun xs =>
      "The median value in column '" ++ column ++ "' is " ++ fmtOpt (pdMedian xs) ++ "."
  | StatOp.std => (dfGet df column).bind fun cells => (astypeFloat cells).map fun xs =>
      "The standard deviation of values in column '" ++ column ++ "' is " ++
        fmtOpt ((pdVar xs).map sqrtF) ++ "."
  | StatOp.var => (dfGet df column).bind fun cells => (astypeFloat cells).map fun xs =>
      "The variance of values in column '" ++ column ++ "' is " ++ fmtOpt (pdVar xs) ++ "."

/-- The if/elif cascade inside the try block of extract_info (src/app.py
lines 47-72), acting on the already lower-cased prompt.  Each branch
repeats the source's body; the square root of the standard-deviation
branch is abstracted as the parameter sqrtF because the exact square root
of a rational is irrational in general. -/
def extract_info_chain (sqrtF : ℚ → ℚ) (df : Table) (column : String) (p : String) :
    Except String String :=
  if pyIn "minimum" p || pyIn "lowest" p then
    (dfGet df column).bind fun cells => (astypeFloat cells).map fun xs =>
      "The minimum value in column '" ++ column ++ "' is " ++ fmtOpt (pdMin xs) ++ "."
  else if pyIn "maximum" p || pyIn "highest" p then
    (dfGet df column).bind fun cells => (astypeFloat cells).map fun xs =>
      "The maximum value in column '" ++ column ++ "' is " ++ fmtOpt (pdMax xs) ++ "."
  else if pyIn "average" p || pyIn "mean" p then
    (dfGet df column).bind fun cells => (astypeFloat cells).map fun xs =>
      "The average value in column '" ++ column ++ "' is " ++ fmtOpt (pdMean xs) ++ "."
  else if pyIn "sum" p || pyIn "total" p then
    (dfGet df column).bind fun cells => (astypeFloat cells).map fun xs =>
      "The sum of values in column '" ++ column ++ "' is " ++ pyFloatRepr (pdSum xs) ++ "."
  else if pyIn "count" p || pyIn "number of" p then
    (dfGet df column).map fun cells =>
      "The count of values in column '" ++ column ++ "' is " ++ toString (pdCount cells) ++ "."
  else if pyIn "median" p then
    (dfGet df column).bind fun cells => (astypeFloat cells).map fun xs =>
      "The median value in column '" ++ column ++ "' is " ++ fmtOpt (pdMedian xs) ++ "."
  else if pyIn "standard deviation" p || pyIn "std dev" p then
    (dfGet df column).bind fun cells => (astypeFloat cells).map fun xs =>
      "The standard deviation of values in column '" ++ column ++ "' is " ++
        fmtOpt ((pdVar xs).map sqrtF) ++ "."
  else if pyIn "variance" p then
    (dfGet df column).bind fun cells => (astypeFloat cells).map fun xs =>
      "The variance of values in column '" ++ column ++ "' is " ++ fmtOpt (pdVar xs) ++ "."
  else
    Except.ok "Query not supported. Please rephrase your query to include 'minimum', 'maximum', 'average', 'sum', 'count', 'median', 'standard deviation', or 'variance'."

/-- The function extract_info of src/app.py lines 42-74.  The spaCy model
load and the parse of the prompt are modelled by the parameter parse,
whose document result the source never consults; the try/except boundary
converts any raised error into the string "Error: " followed by the
message, exactly as the except branch does. -/
def extract_info {Doc : Type} (parse : String → Except String Doc) (sqrtF : ℚ → ℚ)
    (df : Table) (column : String) (prompt : String) : String :=
  match (parse prompt).bind (fun _ => extract_info_chain sqrtF df column (pyLower prompt)) with
  | Except.ok s => s
  | Except.error e => "Error: " ++ e

/-- The same function with the two natural-language-parse lines removed,
used to state that those lines have no observable effect. -/
def extract_info_noparse (sqrtF : ℚ → ℚ) (df : Table) (column : String) (prompt : String) :
    String :=
  match extract_info_chain sqrtF df column (pyLower prompt) with
  | Except.ok s => s
  | Except.error e => "Error: " ++ e

/-- Width of the data rows as the DataFrame constructor measures it: the
length of the longest row. -/
def rowsWidth (rows : List (List String)) : Nat :=
  rows.foldl (fun a r => max a r.length) 0

/-- Successful outcome of DataFrame(values[1:], columns=values[0])
(src/app.py line 35): each header entry names the column whose cells come
from the corresponding position of every data row, a row shorter than the
widest leaving nulls.  get_google_sheet applies this only to grids that
pass the constructor's width check, data rows absent or their widest row
exactly as long as the header, so no row here is ever longer than the
header. -/
def mkTable (header : List String) (rows : List (List String)) : Table :=
  header.enum.map (fun ic => (ic.2, rows.map (fun r => r.get? ic.1)))

/-- Observable outcome of get_google_sheet (src/app.py lines 24-40): the
distinct "No data found" signal, a connection failure with its rendered
message, or a loaded table. -/
inductive SheetResult where
  | noData
  | connectionError (msg : String)
  | table (t : Table)
deriving DecidableEq

/-- The function get_google_sheet of src/app.py lines 24-40, with the
already-fetched 2-D grid (or the fetch failure) supplied by the external
spreadsheet collaborator as the parameter fetched.  When data rows are
present but their width, the length of the longest one, differs from the
header length, the DataFrame constructor raises the ValueError
"N columns passed, passed data had M columns", which the function's
except branch renders with the connection-error prefix. -/
def get_google_sheet (fetched : Except String (List (List String))) : SheetResult :=
  match fetched with
  | Except.error e => SheetResult.connectionError ("Error connecting to Google Sheets: " ++ e)
  | Except.ok [] => SheetResult.noData
  | Except.ok (header :: rows) =>
    if rows.isEmpty || rowsWidth rows == header.length then
      SheetResult.table (mkTable header rows)
    else
      SheetResult.connectionError ("Error connecting to Google Sheets: " ++
        toString header.length ++ " columns passed, passed data had " ++
        toString (rowsWidth rows) ++ " columns")

/-- Keyword vocabulary of one statistic family, in the source's order
(src/app.py lines 47-68). -/
def familyKeywords : StatOp → List String
  | StatOp.min => ["minimum", "lowest"]
  | StatOp.max => ["maximum", "highest"]
  | StatOp.mean => ["average", "mean"]
  | StatOp.sum => ["sum", "total"]
  | StatOp.count => ["count", "number of"]
  | StatOp.median => ["median"]
  | StatOp.std => ["standard deviation", "std dev"]
  | StatOp.var => ["variance"]

/-- The fixed order in which the specification says the families are
tried: minimum, maximum, average, sum, count, median, standard
deviation, variance. -/
def famOrder : List StatOp :=
  [StatOp.min, StatOp.max, StatOp.mean, StatOp.sum, StatOp.count, StatOp.median,
   StatOp.std, StatOp.var]

/-- Specification-side selector: the first family, in the fixed order,
one of whose keywords occurs in the prompt. -/
def specDispatch (p : String) : Option StatOp :=
  famOrder.find? (fun op => (familyKeywords op).any (fun k => pyIn k p))

/-- Specification-side reading of the median: the middle value of a
sorted sequence, or the mean of the two middle values when the length is
even. -/
def middleVal (s : List ℚ) : ℚ :=
  if s.length % 2 = 1 then s.getD (s.length / 2) 0
  else (s.getD (s.length / 2 - 1) 0 + s.getD (s.length / 2) 0) / 2

/-- True when any keyword of any family occurs in the string. -/
def anyKeyword (p : String) : Bool :=
  pyIn "minimum" p || pyIn "lowest" p || pyIn "maximum" p || pyIn "highest" p ||
  pyIn "average" p || pyIn "mean" p || pyIn "sum" p || pyIn "total" p ||
  pyIn "count" p || pyIn "number of" p || pyIn "median" p ||
  pyIn "standard deviation" p || pyIn "std dev" p || pyIn "variance" p

/-- The three-row table of the specification's round-trip example. -/
def ageTable : Table := [("Age", [some "10", some "20", some "30"])]

theorem chain_dispatch (sqrtF : ℚ → ℚ) (df : Table) (c p : String) :
    extract_info_chain sqrtF df c p =
      match dispatch p with
      | some op => applyOp sqrtF df c op
      | none => Except.ok "Query not supported. Please rephrase your query to include 'minimum', 'maximum', 'average', 'sum', 'count', 'median', 'standard deviation', or 'variance'." := by
  unfold extract_info_chain dispatch
  repeat' split <;> try rfl

theorem extract_info_eval {Doc : Type} (parse : String → Except String Doc) (d : Doc)
    (sqrtF : ℚ → ℚ) (df : Table) (c prompt : String) (hp : parse prompt = Except.ok d) :
    extract_info parse sqrtF df c prompt =
      match extract_info_chain sqrtF df c (pyLower prompt) with
      | Except.ok s => s
      | Except.error e => "Error: " ++ e := by
  unfold extract_info
  rw [hp]
  rfl

theorem extract_info_dispatch {Doc : Type} (parse : String → Except String Doc) (d : Doc)
    (sqrtF : ℚ → ℚ) (df : Table) (c prompt : String) (hp : parse prompt = Except.ok d) :
    extract_info parse sqrtF df c prompt =
      match
        (match dispatch (pyLower prompt) with
         | some op => applyOp sqrtF df c op
         | none => Except.ok "Query not supported. Please rephrase your query to include 'minimum', 'maximum', 'average', 'sum', 'count', 'median', 'standard deviation', or 'variance'.") with
      | Except.ok s => s
      | Except.error e => "Error: " ++ e := by
  rw [extract_info_eval parse d sqrtF df c prompt hp, chain_dispatch]

theorem foldl_min_mem (y : ℚ) (ys : List ℚ) : ys.foldl min y ∈ y :: ys := by
  induction ys generalizing y with
  | nil => simp
  | cons z zs ih =>
    simp only [List.foldl_cons]
    rcases List.mem_cons.mp (ih (min y z)) with h | h
    · rcases min_choice y z with hc | hc <;> rw [h, hc] <;> simp
    · simp [h]

theorem foldl_min_le (y : ℚ) (ys : List ℚ) : ∀ z ∈ y :: ys, ys.foldl min y ≤ z := by
  induction ys generalizing y with
  | nil =>
    intro z hz
    simp at hz
    simp [hz]
  | cons w ws ih =>
    intro z hz
    simp only [List.foldl_cons]
    have hbase : ws.foldl min (min y w) ≤ min y w :=
      ih (min y w) (min y w) (List.mem_cons_self _ _)
    rcases List.mem_cons.mp hz with h1 | h2
    · subst h1
      exact le_trans hbase (min_le_left _ _)
    · rcases List.mem_cons.mp h2 with h3 | h4
      · subst h3
        exact le_trans hbase (min_le_right _ _)
      · exact ih (min y w) z (List.mem_cons_of_mem _ h4)

theorem foldl_max_mem (y : ℚ) (ys : List ℚ) : ys.foldl max y ∈ y :: ys := by
  induction ys generalizing y with
  | nil => simp
  | cons z zs ih =>
    simp only [List.foldl_cons]
    rcases List.mem_cons.mp (ih (max y z)) with h | h
    · rcases max_choice y z with hc | hc <;> rw [h, hc] <;> simp
    · simp [h]

theorem foldl_max_ge (y : ℚ) (ys : List ℚ) : ∀ z ∈ y :: ys, z ≤ ys.foldl max y := by
  induction ys generalizing y with
  | nil =>
    intro z hz
    simp at hz
    simp [hz]
  | cons w ws ih =>
    intro z hz
    simp only [List.foldl_cons]
    have hbase : max y w ≤ ws.foldl max (max y w) :=
      ih (max y w) (max y w) (List.mem_cons_self _ _)
    rcases List.mem_cons.mp hz with h1 | h2
    · subst h1
      exact le_trans (le_max_left _ _) hbase
    · rcases List.mem_cons.mp h2 with h3 | h4
      · subst h3
        exact le_trans (le_max_right _ _) hbase
      · exact ih (max y w) z (List.mem_cons_of_mem _ h4)

theorem dropNa_map_some (l : List ℚ) : dropNa (l.map some) = l := by
  simp [dropNa]

theorem pyFloat_error (s e : String) (h : pyFloat s = Except.error e) :
    e = "could not convert string to float: '" ++ s ++ "'" := by
  unfold pyFloat at h
  cases hp : parseSignedFloat (pyStrip s).data <;> rw [hp] at h <;> simp_all

theorem dfGet_error (df : Table) (c e : String) (h : dfGet df c = Except.error e) :
    e = "'" ++ c ++ "'" := by
  unfold dfGet at h
  cases hf : df.find? (fun kv => kv.1 == c) <;> rw [hf] at h <;> simp_all

theorem astypeFloat_error_mem (cells : List Cell) (e : String)
    (h : astypeFloat cells = Except.error e) :
    ∃ s, some s ∈ cells ∧ e = "could not convert string to float: '" ++ s ++ "'" := by
  induction cells with
  | nil => simp [astypeFloat] at h
  | cons c cs ih =>
    unfold astypeFloat at h
    cases hc : cellToFloat c with
    | error e' =>
      rw [hc] at h
      simp at h
      subst h
      cases c with
      | none => simp [cellToFloat] at hc
      | some s =>
        refine ⟨s, by simp, ?_⟩
        simp only [cellToFloat] at hc
        cases hps : pyFloat s with
        | ok q => rw [hps] at hc; simp [Except.map] at hc
        | error e2 =>
          rw [hps] at hc
          simp [Except.map] at hc
          subst hc
          exact pyFloat_error s _ hps
    | ok v =>
      rw [hc] at h
      cases hcs : astypeFloat cs with
      | error e2 =>
        rw [hcs] at h
        simp at h
        subst h
        rcases ih hcs with ⟨s, hs, he⟩
        exact ⟨s, List.mem_cons_of_mem _ hs, he⟩
      | ok vs => rw [hcs] at h; simp at h

theorem astypeFloat_ok_count (cells : List Cell) (l : List ℚ)
    (h : astypeFloat cells = Except.ok (l.map some)) : pdCount cells = l.length := by
  induction cells generalizing l with
  | nil =>
    simp [astypeFloat] at h
    have : l = [] := by
      cases l with
      | nil => rfl
      | cons a as => simp at h
    subst this
    rfl
  | cons c cs ih =>
    unfold astypeFloat at h
    cases hc : cellToFloat c with
    | error e' => rw [hc] at h; simp at h
    | ok v =>
      rw [hc] at h
      cases hcs : astypeFloat cs with
      | error e2 => rw [hcs] at h; simp at h
      | ok vs =>
        rw [hcs] at h
        simp at h
        cases l with
        | nil => simp at h
        | cons q l2 =>
          simp at h
          rcases h with ⟨hv, hvs⟩
          cases c with
          | none => simp [cellToFloat] at hc; simp_all
          | some s =>
            have : pdCount cs = l2.length := ih l2 (by rw [hcs, hvs])
            simp [pdCount, List.filterMap_cons] at this ⊢
            omega

theorem pdMin_spec (l : List ℚ) (m : ℚ) (h : pdMin (l.map some) = some m) :
    m ∈ l ∧ ∀ y ∈ l, m ≤ y := by
  unfold pdMin at h
  rw [dropNa_map_some] at h
  cases l with
  | nil => simp at h
  | cons y ys =>
    simp at h
    subst h
    exact ⟨foldl_min_mem y ys, foldl_min_le y ys⟩

theorem pdMin_isSome (l : List ℚ) (hne : l ≠ []) : ∃ m, pdMin (l.map some) = some m := by
  unfold pdMin
  rw [dropNa_map_some]
  cases l with
  | nil => exact absurd rfl hne
  | cons y ys => exact ⟨ys.foldl min y, rfl⟩

theorem pdMax_spec (l : List ℚ) (m : ℚ) (h : pdMax (l.map some) = some m) :
    m ∈ l ∧ ∀ y ∈ l, y ≤ m := by
  unfold pdMax at h
  rw [dropNa_map_some] at h
  cases l with
  | nil => simp at h
  | cons y ys =>
    simp at h
    subst h
    exact ⟨foldl_max_mem y ys, foldl_max_ge y ys⟩

theorem pdMax_isSome (l : List ℚ) (hne : l ≠ []) : ∃ m, pdMax (l.map some) = some m := by
  unfold pdMax
  rw [dropNa_map_some]
  cases l with
  | nil => exact absurd rfl hne
  | cons y ys => exact ⟨ys.foldl max y, rfl⟩

theorem pdSum_spec (l : List ℚ) : pdSum (l.map some) = l.sum := by
  unfold pdSum
  rw [dropNa_map_some]

theorem pdMean_spec (l : List ℚ) (μ : ℚ) (h : pdMean (l.map some) = some μ) :
    μ * (l.length : ℚ) = l.sum := by
  unfold pdMean at h
  rw [dropNa_map_some] at h
  by_cases h0 : l.length = 0
  · rw [if_pos h0] at h
    exact Option.noConfusion h
  · rw [if_neg h0] at h
    have h2 := Option.some.inj h
    rw [← h2]
    exact div_mul_cancel₀ _ (Nat.cast_ne_zero.mpr h0)

theorem pdMean_isSome (l : List ℚ) (hne : l ≠ []) : ∃ μ, pdMean (l.map some) = some μ := by
  unfold pdMean
  rw [dropNa_map_some]
  have h0 : l.length ≠ 0 := fun h => hne (List.length_eq_zero.mp h)
  simp [h0]

theorem pdVar_spec (l : List ℚ) (h2 : 2 ≤ l.length) :
    ∃ μ v, pdMean (l.map some) = some μ ∧ pdVar (l.map some) = some v ∧
      v * ((l.length : ℚ) - 1) = (l.map (fun x => (x - μ) ^ 2)).sum := by
  have h0 : l.length ≠ 0 := by omega
  have hlt : ¬(l.length < 2) := by omega
  refine ⟨l.sum / (l.length : ℚ),
    (l.map (fun x => (x - l.sum / (l.length : ℚ)) ^ 2)).sum / ((l.length : ℚ) - 1),
    ?_, ?_, ?_⟩
  · unfold pdMean
    rw [dropNa_map_some, if_neg h0]
  · unfold pdVar
    rw [dropNa_map_some, if_neg hlt]
  · have hne1 : ((l.length : ℚ) - 1) ≠ 0 := by
      have hge : (2 : ℚ) ≤ (l.length : ℚ) := by exact_mod_cast h2
      intro hz
      rw [sub_eq_zero] at hz
      rw [hz] at hge
      norm_num at hge
    exact div_mul_cancel₀ _ hne1

theorem pdMedian_spec (l s : List ℚ) (hne : l ≠ []) (hperm : s.Perm l)
    (hsort : List.Sorted (· ≤ ·) s) : pdMedian (l.map some) = some (middleVal s) := by
  have hs : List.insertionSort (· ≤ ·) l = s :=
    List.eq_of_perm_of_sorted ((List.perm_insertionSort (· ≤ ·) l).trans hperm.symm)
      (List.sorted_insertionSort (· ≤ ·) l) hsort
  unfold pdMedian middleVal
  rw [dropNa_map_some, hs]
  have h0 : s.length ≠ 0 := by
    rw [hperm.length_eq]
    exact fun h => hne (List.length_eq_zero.mp h)
  simp only [h0, if_false]
  by_cases hpar : s.length % 2 = 1 <;> simp [hpar]

theorem dfGet_astype_eval (df : Table) (c : String) (cells : List Cell) (xs : List (Option ℚ))
    (hget : dfGet df c = Except.ok cells) (hast : astypeFloat cells = Except.ok xs)
    (f : List (Option ℚ) → String) :
    ((dfGet df c).bind fun cl => Except.map f (astypeFloat cl)) = Except.ok (f xs) := by
  rw [hget]
  show Except.map f (astypeFloat cells) = _
  rw [hast]
  rfl

theorem dfGet_astype_eval_err (df : Table) (c : String) (cells : List Cell) (e : String)
    (hget : dfGet df c = Except.ok cells) (hast : astypeFloat cells = Except.error e)
    (f : List (Option ℚ) → String) :
    ((dfGet df c).bind fun cl => Except.map f (astypeFloat cl)) = Except.error e := by
  rw [hget]
  show Except.map f (astypeFloat cells) = _
  rw [hast]
  rfl

/-- C7: a prompt whose lower-cased form contains none of the fourteen
keywords of the eight families makes extract_info return the fixed
unsupported-query guidance string, whatever the table and the selected
column are. -/
theorem extract_info_unsupported_guidance (Doc : Type) (parse : String → Except String Doc)
    (d : Doc) (sqrtF : ℚ → ℚ) (df : Table) (c p : String)
    (hparse : parse p = Except.ok d)
    (h1 : pyIn "minimum" (pyLower p) = false) (h2 : pyIn "lowest" (pyLower p) = false)
    (h3 : pyIn "maximum" (pyLower p) = false) (h4 : pyIn "highest" (pyLower p) = false)
    (h5 : pyIn "average" (pyLower p) = false) (h6 : pyIn "mean" (pyLower p) = false)
    (h7 : pyIn "sum" (pyLower p) = false) (h8 : pyIn "total" (pyLower p) = false)
    (h9 : pyIn "count" (pyLower p) = false) (h10 : pyIn "number of" (pyLower p) = false)
    (h11 : pyIn "median" (pyLower p) = false)
    (h12 : pyIn "standard deviation" (pyLower p) = false)
    (h13 : pyIn "std dev" (pyLower p) = false)
    (h14 : pyIn "variance" (pyLower p) = false) :
    extract_info parse sqrtF df c p = "Query not supported. Please rephrase your query to include 'minimum', 'maximum', 'average', 'sum', 'count', 'median', 'standard deviation', or 'variance'." := by
  rw [extract_info_dispatch parse d sqrtF df c p hparse]
  have hd : dispatch (pyLower p) = none := by
    unfold dispatch
    rw [h1, h2, h3, h4, h5, h6, h7, h8, h9, h10, h11, h12, h13, h14]
    rfl
  rw [hd]

theorem extract_info_unsupported_guidance_witness :
    extract_info (fun _ => Except.ok ()) (fun q => q) ageTable "Age" "Tell me a joke" =
      "Query not supported. Please rephrase your query to include 'minimum', 'maximum', 'average', 'sum', 'count', 'median', 'standard deviation', or 'variance'." :=
  extract_info_unsupported_guidance Unit (fun _ => Except.ok ()) () (fun q => q) ageTable
    "Age" "Tell me a joke" rfl (by decide) (by decide) (by decide) (by decide) (by decide)
    (by decide) (by decide) (by decide) (by decide) (by decide) (by decide) (by decide)
    (by decide) (by decide)

/-- C8: extract_info depends on the prompt only through its lower-cased
form once the language-model parse has succeeded, so any two case
variants of a prompt yield the same result. -/
theorem extract_info_case_insensitive (Doc : Type) (parse : String → Except String Doc)
    (d1 d2 : Doc) (sqrtF : ℚ → ℚ) (df : Table) (c p1 p2 : String)
    (hp1 : parse p1 = Except.ok d1) (hp2 : parse p2 = Except.ok d2)
    (hlow : pyLower p1 = pyLower p2) :
    extract_info parse sqrtF df c p1 = extract_info parse sqrtF df c p2 := by
  rw [extract_info_eval parse d1 sqrtF df c p1 hp1,
      extract_info_eval parse d2 sqrtF df c p2 hp2, hlow]

theorem extract_info_case_insensitive_witness :
    extract_info (fun _ => Except.ok ()) (fun q => q) ageTable "Age" "MINIMUM" =
      extract_info (fun _ => Except.ok ()) (fun q => q) ageTable "Age" "Minimum" :=
  extract_info_case_insensitive Unit (fun _ => Except.ok ()) () () (fun q => q) ageTable
    "Age" "MINIMUM" "Minimum" rfl rfl (by decide)

/-- C9: when the natural-language parse succeeds, extract_info returns
exactly what the same function with the two parse lines removed returns;
the parsed document is never consulted. -/
theorem extract_info_parse_no_effect (Doc : Type) (parse : String → Except String Doc)
    (d : Doc) (sqrtF : ℚ → ℚ) (df : Table) (c p : String)
    (hparse : parse p = Except.ok d) :
    extract_info parse sqrtF df c p = extract_info_noparse sqrtF df c p := by
  rw [extract_info_eval parse d sqrtF df c p hparse]
  rfl

theorem extract_info_parse_no_effect_witness :
    extract_info (fun _ => Except.ok ()) (fun q => q) ageTable "Age" "sum please" =
      extract_info_noparse (fun q => q) ageTable "Age" "sum please" :=
  extract_info_parse_no_effect Unit (fun _ => Except.ok ()) () (fun q => q) ageTable "Age"
    "sum please" rfl

/-- C3 counterexample: a grid holding only a header row is not answered
with the no-data signal; get_google_sheet builds an ordinary empty table
from it. -/
theorem get_google_sheet_header_only_counterexample :
    get_google_sheet (Except.ok [["A"]]) = SheetResult.table [("A", [])] ∧
      get_google_sheet (Except.ok [["A"]]) ≠ SheetResult.noData := by
  constructor
  · rfl
  · decide

/-- C3 amended: get_google_sheet returns the no-data signal exactly when
the fetched grid is entirely empty; a nonempty grid whose data rows are
absent, a header-only one included, or exactly as wide as the header
becomes a table whose columns come from the header row; a nonempty grid
whose data width differs from the header length makes the DataFrame
constructor raise, reported as the connection-error message carrying the
ValueError text; and a fetch failure becomes the connection-error
message. -/
theorem get_google_sheet_empty_signal :
    (∀ values : List (List String),
        get_google_sheet (Except.ok values) = SheetResult.noData ↔ values = []) ∧
    (∀ (header : List String) (rows : List (List String)),
        rows = [] ∨ rowsWidth rows = header.length →
        get_google_sheet (Except.ok (header :: rows)) =
          SheetResult.table (mkTable header rows)) ∧
    (∀ (header : List String) (rows : List (List String)),
        rows ≠ [] → rowsWidth rows ≠ header.length →
        get_google_sheet (Except.ok (header :: rows)) =
          SheetResult.connectionError ("Error connecting to Google Sheets: " ++
            toString header.length ++ " columns passed, passed data had " ++
            toString (rowsWidth rows) ++ " columns")) ∧
    (∀ e : String,
        get_google_sheet (Except.error e) =
          SheetResult.connectionError ("Error connecting to Google Sheets: " ++ e)) := by
  refine ⟨?_, ?_, ?_, ?_⟩
  · intro values
    cases values with
    | nil => simp [get_google_sheet]
    | cons h t =>
      constructor
      · intro hcon
        simp only [get_google_sheet] at hcon
        split at hcon <;> exact SheetResult.noConfusion hcon
      · intro hcon
        exact List.noConfusion hcon
  · intro header rows hcond
    have hb : (rows.isEmpty || rowsWidth rows == header.length) = true := by
      rcases hcond with h | h
      · subst h
        rfl
      · simp [h]
    simp only [get_google_sheet]
    rw [hb]
    rfl
  · intro header rows hne hnw
    have hb : (rows.isEmpty || rowsWidth rows == header.length) = false := by
      cases rows with
      | nil => exact absurd rfl hne
      | cons r rs =>
        simp only [List.isEmpty_cons, Bool.false_or]
        exact beq_eq_false_iff_ne.mpr hnw
    simp only [get_google_sheet]
    rw [hb]
    rfl
  · intro e
    rfl

theorem get_google_sheet_empty_signal_witness :
    get_google_sheet (Except.ok []) = SheetResult.noData :=
  (get_google_sheet_empty_signal.1 []).mpr rfl

/-- C4: the keyword cascade is first-match-wins over the fixed family
order minimum, maximum, average, sum, count, median, standard deviation,
variance; the cascade realises exactly that ordered search, and the
prompt that contains both a sum keyword and an average keyword lands in
the average branch because average is tested first. -/
theorem keyword_order_first_match :
    (∀ p : String, dispatch p = specDispatch p) ∧
    (∀ (sqrtF : ℚ → ℚ) (df : Table) (c p : String),
        extract_info_chain sqrtF df c p =
          match dispatch p with
          | some op => applyOp sqrtF df c op
          | none => Except.ok "Query not supported. Please rephrase your query to include 'minimum', 'maximum', 'average', 'sum', 'count', 'median', 'standard deviation', or 'variance'.") ∧
    extract_info (fun _ => Except.ok ()) (fun q => q) ageTable "Age" "Get the total average" =
      "The average value in column 'Age' is 20.0." := by
  refine ⟨?_, chain_dispatch, by decide⟩
  intro p
  unfold dispatch specDispatch famOrder familyKeywords
  simp only [List.find?, List.any_cons, List.any_nil, Bool.or_false]
  cases h1 : (pyIn "minimum" p || pyIn "lowest" p) with
  | true => rfl
  | false =>
    cases h2 : (pyIn "maximum" p || pyIn "highest" p) with
    | true => rfl
    | false =>
      cases h3 : (pyIn "average" p || pyIn "mean" p) with
      | true => rfl
      | false =>
        cases h4 : (pyIn "sum" p || pyIn "total" p) with
        | true => rfl
        | false =>
          cases h5 : (pyIn "count" p || pyIn "number of" p) with
          | true => rfl
          | false =>
            cases h6 : pyIn "median" p with
            | true => rfl
            | false =>
              cases h7 : (pyIn "standard deviation" p || pyIn "std dev" p) with
              | true => rfl
              | false =>
                cases h8 : pyIn "variance" p with
                | true => rfl
                | false => rfl

theorem keyword_order_first_match_witness :
    extract_info (fun _ => Except.ok ()) (fun q => q) ageTable "Age" "Get the total average" =
      "The average value in column 'Age' is 20.0." :=
  keyword_order_first_match.2.2

/-- C10: keyword matching is raw substring containment on the lower-cased
prompt: any prompt containing any trigger substring never falls through
to the unsupported-query branch, a prompt containing "sum" inside a
longer word (and no earlier family keyword) computes the sum, and the
concrete prompt about a summary yields the sum of the Age column. -/
theorem extract_info_substring_triggers :
    (∀ q : String, anyKeyword q = true → dispatch q ≠ none) ∧
    (∀ (Doc : Type) (parse : String → Except String Doc) (d : Doc) (sqrtF : ℚ → ℚ)
        (df : Table) (c p : String) (cells : List Cell) (xs : List (Option ℚ)),
        parse p = Except.ok d →
        pyIn "minimum" (pyLower p) = false → pyIn "lowest" (pyLower p) = false →
        pyIn "maximum" (pyLower p) = false → pyIn "highest" (pyLower p) = false →
        pyIn "average" (pyLower p) = false → pyIn "mean" (pyLower p) = false →
        pyIn "sum" (pyLower p) = true →
        dfGet df c = Except.ok cells → astypeFloat cells = Except.ok xs →
        extract_info parse sqrtF df c p =
          "The sum of values in column '" ++ c ++ "' is " ++ pyFloatRepr (pdSum xs) ++ ".") ∧
    extract_info (fun _ => Except.ok ()) (fun q => q) ageTable "Age" "Give me a summary" =
      "The sum of values in column 'Age' is 60.0." := by
  refine ⟨?_, ?_, by decide⟩
  · intro q h hnone
    unfold dispatch at hnone
    unfold anyKeyword at h
    repeat' split at hnone
    all_goals simp_all
  · intro Doc parse d sqrtF df c p cells xs hp h1 h2 h3 h4 h5 h6 h7 hget hast
    have hd : dispatch (pyLower p) = some StatOp.sum := by
      unfold dispatch
      rw [h1, h2, h3, h4, h5, h6, h7]
      rfl
    rw [extract_info_dispatch parse d sqrtF df c p hp, hd]
    simp only [applyOp]
    rw [dfGet_astype_eval df c cells xs hget hast]

theorem extract_info_substring_triggers_witness :
    extract_info (fun _ => Except.ok ()) (fun q => q) ageTable "Age" "Give me a summary" =
      "The sum of values in column 'Age' is 60.0." ∧
    extract_info (fun _ => Except.ok ()) (fun q => q) ageTable "Age" "What is the summation?" =
      "The sum of values in column 'Age' is " ++ pyFloatRepr (pdSum [some 10, some 20, some 30]) ++ "." :=
  ⟨extract_info_substring_triggers.2.2,
    extract_info_substring_triggers.2.1 Unit (fun _ => Except.ok ()) () (fun q => q) ageTable
      "Age" "What is the summation?" [some "10", some "20", some "30"]
      [some 10, some 20, some 30] rfl (by decide) (by decide) (by decide) (by decide)
      (by decide) (by decide) (by decide) (by decide) (by decide)⟩

/-- C6: a prompt that matches the count family and none of the four
families tested before it makes extract_info report the number of
non-null cells of the selected column, with no float coercion involved,
so any cell contents are accepted. -/
theorem extract_info_count_nonnull (Doc : Type) (parse : String → Except String Doc)
    (d : Doc) (sqrtF : ℚ → ℚ) (df : Table) (c p : String) (cells : List Cell)
    (hparse : parse p = Except.ok d)
    (h1 : pyIn "minimum" (pyLower p) = false) (h2 : pyIn "lowest" (pyLower p) = false)
    (h3 : pyIn "maximum" (pyLower p) = false) (h4 : pyIn "highest" (pyLower p) = false)
    (h5 : pyIn "average" (pyLower p) = false) (h6 : pyIn "mean" (pyLower p) = false)
    (h7 : pyIn "sum" (pyLower p) = false) (h8 : pyIn "total" (pyLower p) = false)
    (hcount : (pyIn "count" (pyLower p) || pyIn "number of" (pyLower p)) = true)
    (hget : dfGet df c = Except.ok cells) :
    extract_info parse sqrtF df c p =
      "The count of values in column '" ++ c ++ "' is " ++ toString (pdCount cells) ++ "." ∧
    pdCount cells = (cells.filterMap id).length := by
  constructor
  · have hd : dispatch (pyLower p) = some StatOp.count := by
      unfold dispatch
      rw [h1, h2, h3, h4, h5, h6, h7, h8, hcount]
      rfl
    rw [extract_info_dispatch parse d sqrtF df c p hparse, hd]
    simp only [applyOp]
    rw [hget]
    rfl
  · rfl

theorem extract_info_count_nonnull_witness :
    extract_info (fun _ => Except.ok ()) (fun q => q) [("X", [some "abc", none, some "5"])]
      "X" "count" = "The count of values in column 'X' is 2." := by
  have h := extract_info_count_nonnull Unit (fun _ => Except.ok ()) () (fun q => q)
    [("X", [some "abc", none, some "5"])] "X" "count" [some "abc", none, some "5"] rfl
    (by decide) (by decide) (by decide) (by decide) (by decide) (by decide) (by decide)
    (by decide) (by decide) (by decide)
  rw [h.1]
  decide

/-- C5: extract_info converts every failure into an error string holding
the raised message: a missing column yields the KeyError text, which is
the column name in quotes, and a coercion failure during a numeric
statistic yields the ValueError text naming the offending cell. -/
theorem extract_info_error_reporting (Doc : Type) (parse : String → Except String Doc)
    (d : Doc) (sqrtF : ℚ → ℚ) (df : Table) (c p : String)
    (hparse : parse p = Except.ok d) :
    (∀ (op : StatOp) (e : String), dispatch (pyLower p) = some op →
        dfGet df c = Except.error e →
        extract_info parse sqrtF df c p = "Error: " ++ e ∧ e = "'" ++ c ++ "'") ∧
    (∀ (op : StatOp) (cells : List Cell) (e : String), dispatch (pyLower p) = some op →
        op ≠ StatOp.count → dfGet df c = Except.ok cells →
        astypeFloat cells = Except.error e →
        extract_info parse sqrtF df c p = "Error: " ++ e ∧
          ∃ s, some s ∈ cells ∧ e = "could not convert string to float: '" ++ s ++ "'") := by
  constructor
  · intro op e hd hget
    refine ⟨?_, dfGet_error df c e hget⟩
    rw [extract_info_dispatch parse d sqrtF df c p hparse, hd]
    cases op <;> simp only [applyOp] <;> rw [hget] <;> rfl
  · intro op cells e hd hne hget hast
    refine ⟨?_, astypeFloat_error_mem cells e hast⟩
    rw [extract_info_dispatch parse d sqrtF df c p hparse, hd]
    cases op with
    | count => exact absurd rfl hne
    | min =>
      simp only [applyOp]
      rw [dfGet_astype_eval_err df c cells e hget hast]
    | max =>
      simp only [applyOp]
      rw [dfGet_astype_eval_err df c cells e hget hast]
    | mean =>
      simp only [applyOp]
      rw [dfGet_astype_eval_err df c cells e hget hast]
    | sum =>
      simp only [applyOp]
      rw [dfGet_astype_eval_err df c cells e hget hast]
    | median =>
      simp only [applyOp]
      rw [dfGet_astype_eval_err df c cells e hget hast]
    | std =>
      simp only [applyOp]
      rw [dfGet_astype_eval_err df c cells e hget hast]
    | var =>
      simp only [applyOp]
      rw [dfGet_astype_eval_err df c cells e hget hast]

theorem extract_info_error_reporting_witness :
    extract_info (fun _ => Except.ok ()) (fun q => q) ageTable "Height" "minimum" =
      "Error: 'Height'" ∧
    extract_info (fun _ => Except.ok ()) (fun q => q) [("X", [some "abc", none, some "5"])]
      "X" "minimum" = "Error: could not convert string to float: 'abc'" :=
  ⟨((extract_info_error_reporting Unit (fun _ => Except.ok ()) () (fun q => q) ageTable
      "Height" "minimum" rfl).1 StatOp.min "'Height'" (by decide) (by decide)).1,
    ((extract_info_error_reporting Unit (fun _ => Except.ok ()) () (fun q => q)
      [("X", [some "abc", none, some "5"])] "X" "minimum" rfl).2 StatOp.min
      [some "abc", none, some "5"] "could not convert string to float: 'abc'" (by decide)
      (by decide) (by decide) (by decide)).1⟩

/-- C2 counterexample: the sum branch is a successful statistic
computation whose result string reads "The sum of values in column ...",
not "The sum value in column ..." as the claim prescribes. -/
theorem extract_info_sum_wording_counterexample :
    extract_info (fun _ => Except.ok ()) (fun q => q) ageTable "Age" "What is the sum?" =
      "The sum of values in column 'Age' is 60.0." ∧
    "The sum of values in column 'Age' is 60.0." ≠ "The sum value in column 'Age' is 60.0." :=
  ⟨by decide, by decide⟩

/-- C2 amended: each successful branch formats its result exactly as the
source f-strings do, minimum, maximum, average and median as
"The name value in column ...", sum, standard deviation and variance as
"The name of values in column ...", count as "The count of values in
column ...", and the round-trip example over the Age table prints the
average 20.0 verbatim. -/
theorem extract_info_result_formats (Doc : Type) (parse : String → Except String Doc)
    (d : Doc) (sqrtF : ℚ → ℚ) (df : Table) (c p : String)
    (hparse : parse p = Except.ok d) :
    (∀ (cells : List Cell) (xs : List (Option ℚ)),
        dispatch (pyLower p) = some StatOp.min → dfGet df c = Except.ok cells →
        astypeFloat cells = Except.ok xs →
        extract_info parse sqrtF df c p =
          "The minimum value in column '" ++ c ++ "' is " ++ fmtOpt (pdMin xs) ++ ".") ∧
    (∀ (cells : List Cell) (xs : List (Option ℚ)),
        dispatch (pyLower p) = some StatOp.max → dfGet df c = Except.ok cells →
        astypeFloat cells = Except.ok xs →
        extract_info parse sqrtF df c p =
          "The maximum value in column '" ++ c ++ "' is " ++ fmtOpt (pdMax xs) ++ ".") ∧
    (∀ (cells : List Cell) (xs : List (Option ℚ)),
        dispatch (pyLower p) = some StatOp.mean → dfGet df c = Except.ok cells →
        astypeFloat cells = Except.ok xs →
        extract_info parse sqrtF df c p =
          "The average value in column '" ++ c ++ "' is " ++ fmtOpt (pdMean xs) ++ ".") ∧
    (∀ (cells : List Cell) (xs : List (Option ℚ)),
        dispatch (pyLower p) = some StatOp.sum → dfGet df c = Except.ok cells →
        astypeFloat cells = Except.ok xs →
        extract_info parse sqrtF df c p =
          "The sum of values in column '" ++ c ++ "' is " ++ pyFloatRepr (pdSum xs) ++ ".") ∧
    (∀ cells : List Cell,
        dispatch (pyLower p) = some StatOp.count → dfGet df c = Except.ok cells →
        extract_info parse sqrtF df c p =
          "The count of values in column '" ++ c ++ "' is " ++ toString (pdCount cells) ++ ".") ∧
    (∀ (cells : List Cell) (xs : List (Option ℚ)),
        dispatch (pyLower p) = some StatOp.median → dfGet df c = Except.ok cells →
        astypeFloat cells = Except.ok xs →
        extract_info parse sqrtF df c p =
          "The median value in column '" ++ c ++ "' is " ++ fmtOpt (pdMedian xs) ++ ".") ∧
    (∀ (cells : List Cell) (xs : List (Option ℚ)),
        dispatch (pyLower p) = some StatOp.std → dfGet df c = Except.ok cells →
        astypeFloat cells = Except.ok xs →
        extract_info parse sqrtF df c p =
          "The standard deviation of values in column '" ++ c ++ "' is " ++
            fmtOpt ((pdVar xs).map sqrtF) ++ ".") ∧
    (∀ (cells : List Cell) (xs : List (Option ℚ)),
        dispatch (pyLower p) = some StatOp.var → dfGet df c = Except.ok cells →
        astypeFloat cells = Except.ok xs →
        extract_info parse sqrtF df c p =
          "The variance of values in column '" ++ c ++ "' is " ++ fmtOpt (pdVar xs) ++ ".") ∧
    extract_info (fun _ => Except.ok ()) (fun q : ℚ => q) ageTable "Age"
      "What is the average?" = "The average value in column 'Age' is 20.0." := by
  refine ⟨?_, ?_, ?_, ?_, ?_, ?_, ?_, ?_, by decide⟩
  · intro cells xs hd hget hast
    rw [extract_info_dispatch parse d sqrtF df c p hparse, hd]
    simp only [applyOp]
    rw [dfGet_astype_eval df c cells xs hget hast]
  · intro cells xs hd hget hast
    rw [extract_info_dispatch parse d sqrtF df c p hparse, hd]
    simp only [applyOp]
    rw [dfGet_astype_eval df c cells xs hget hast]
  · intro cells xs hd hget hast
    rw [extract_info_dispatch parse d sqrtF df c p hparse, hd]
    simp only [applyOp]
    rw [dfGet_astype_eval df c cells xs hget hast]
  · intro cells xs hd hget hast
    rw [extract_info_dispatch parse d sqrtF df c p hparse, hd]
    simp only [applyOp]
    rw [dfGet_astype_eval df c cells xs hget hast]
  · intro cells hd hget
    rw [extract_info_dispatch parse d sqrtF df c p hparse, hd]
    simp only [applyOp]
    rw [hget]
    rfl
  · intro cells xs hd hget hast
    rw [extract_info_dispatch parse d sqrtF df c p hparse, hd]
    simp only [applyOp]
    rw [dfGet_astype_eval df c cells xs hget hast]
  · intro cells xs hd hget hast
    rw [extract_info_dispatch parse d sqrtF df c p hparse, hd]
    simp only [applyOp]
    rw [dfGet_astype_eval df c cells xs hget hast]
  · intro cells xs hd hget hast
    rw [extract_info_dispatch parse d sqrtF df c p hparse, hd]
    simp only [applyOp]
    rw [dfGet_astype_eval df c cells xs hget hast]

theorem extract_info_result_formats_witness :
    extract_info (fun _ => Except.ok ()) (fun q : ℚ => q) ageTable "Age"
      "What is the average?" = "The average value in column 'Age' is 20.0." :=
  (extract_info_result_formats Unit (fun _ => Except.ok ()) () (fun q => q) ageTable "Age"
    "What is the average?" rfl).2.2.2.2.2.2.2.2

/-- C1: on a column all of whose cells coerce to floats, every statistic
family branch of extract_info embeds the true value of its statistic:
the minimum and maximum are attained members bounding the column, the
average times the count equals the column sum, the sum is the column
sum, the count is the number of cells, the median is the middle of any
sorted rearrangement with the even case averaging the two middles, and
the variance, whose square root the standard-deviation branch prints,
satisfies the unbiased form with the denominator one less than the
count. -/
theorem extract_info_statistics (Doc : Type) (parse : String → Except String Doc) (d : Doc)
    (sqrtF : ℚ → ℚ) (df : Table) (c p : String) (cells : List Cell) (l : List ℚ)
    (hparse : parse p = Except.ok d) (hget : dfGet df c = Except.ok cells)
    (hast : astypeFloat cells = Except.ok (l.map some)) :
    (dispatch (pyLower p) = some StatOp.min →
        extract_info parse sqrtF df c p =
          "The minimum value in column '" ++ c ++ "' is " ++ fmtOpt (pdMin (l.map some)) ++ "." ∧
        (∀ m, pdMin (l.map some) = some m → m ∈ l ∧ ∀ y ∈ l, m ≤ y) ∧
        (l ≠ [] → ∃ m, pdMin (l.map some) = some m)) ∧
    (dispatch (pyLower p) = some StatOp.max →
        extract_info parse sqrtF df c p =
          "The maximum value in column '" ++ c ++ "' is " ++ fmtOpt (pdMax (l.map some)) ++ "." ∧
        (∀ m, pdMax (l.map some) = some m → m ∈ l ∧ ∀ y ∈ l, y ≤ m) ∧
        (l ≠ [] → ∃ m, pdMax (l.map some) = some m)) ∧
    (dispatch (pyLower p) = some StatOp.mean →
        extract_info parse sqrtF df c p =
          "The average value in column '" ++ c ++ "' is " ++ fmtOpt (pdMean (l.map some)) ++ "." ∧
        (∀ μ, pdMean (l.map some) = some μ → μ * (l.length : ℚ) = l.sum) ∧
        (l ≠ [] → ∃ μ, pdMean (l.map some) = some μ)) ∧
    (dispatch (pyLower p) = some StatOp.sum →
        extract_info parse sqrtF df c p =
          "The sum of values in column '" ++ c ++ "' is " ++
            pyFloatRepr (pdSum (l.map some)) ++ "." ∧
        pdSum (l.map some) = l.sum) ∧
    (dispatch (pyLower p) = some StatOp.count →
        extract_info parse sqrtF df c p =
          "The count of values in column '" ++ c ++ "' is " ++ toString (pdCount cells) ++ "." ∧
        pdCount cells = l.length) ∧
    (dispatch (pyLower p) = some StatOp.median →
        extract_info parse sqrtF df c p =
          "The median value in column '" ++ c ++ "' is " ++ fmtOpt (pdMedian (l.map some)) ++ "." ∧
        (∀ s, s.Perm l → List.Sorted (· ≤ ·) s → l ≠ [] →
            pdMedian (l.map some) = some (middleVal s))) ∧
    (dispatch (pyLower p) = some StatOp.std →
        extract_info parse sqrtF df c p =
          "The standard deviation of values in column '" ++ c ++ "' is " ++
            fmtOpt ((pdVar (l.map some)).map sqrtF) ++ "." ∧
        (2 ≤ l.length → ∃ μ v, pdMean (l.map some) = some μ ∧ pdVar (l.map some) = some v ∧
            v * ((l.length : ℚ) - 1) = (l.map (fun x => (x - μ) ^ 2)).sum)) ∧
    (dispatch (pyLower p) = some StatOp.var →
        extract_info parse sqrtF df c p =
          "The variance of values in column '" ++ c ++ "' is " ++
            fmtOpt (pdVar (l.map some)) ++ "." ∧
        (2 ≤ l.length → ∃ μ v, pdMean (l.map some) = some μ ∧ pdVar (l.map some) = some v ∧
            v * ((l.length : ℚ) - 1) = (l.map (fun x => (x - μ) ^ 2)).sum)) := by
  refine ⟨?_, ?_, ?_, ?_, ?_, ?_, ?_, ?_⟩
  · intro hd
    refine ⟨?_, pdMin_spec l, pdMin_isSome l⟩
    rw [extract_info_dispatch parse d sqrtF df c p hparse, hd]
    simp only [applyOp]
    rw [dfGet_astype_eval df c cells (l.map some) hget hast]
  · intro hd
    refine ⟨?_, pdMax_spec l, pdMax_isSome l⟩
    rw [extract_info_dispatch parse d sqrtF df c p hparse, hd]
    simp only [applyOp]
    rw [dfGet_astype_eval df c cells (l.map some) hget hast]
  · intro hd
    refine ⟨?_, pdMean_spec l, pdMean_isSome l⟩
    rw [extract_info_dispatch parse d sqrtF df c p hparse, hd]
    simp only [applyOp]
    rw [dfGet_astype_eval df c cells (l.map some) hget hast]
  · intro hd
    refine ⟨?_, pdSum_spec l⟩
    rw [extract_info_dispatch parse d sqrtF df c p hparse, hd]
    simp only [applyOp]
    rw [dfGet_astype_eval df c cells (l.map some) hget hast]
  · intro hd
    refine ⟨?_, astypeFloat_ok_count cells l hast⟩
    rw [extract_info_dispatch parse d sqrtF df c p hparse, hd]
    simp only [applyOp]
    rw [hget]
    rfl
  · intro hd
    refine ⟨?_, fun s hp hs hne => pdMedian_spec l s hne hp hs⟩
    rw [extract_info_dispatch parse d sqrtF df c p hparse, hd]
    simp only [applyOp]
    rw [dfGet_astype_eval df c cells (l.map some) hget hast]
  · intro hd
    refine ⟨?_, pdVar_spec l⟩
    rw [extract_info_dispatch parse d sqrtF df c p hparse, hd]
    simp only [applyOp]
    rw [dfGet_astype_eval df c cells (l.map some) hget hast]
  · intro hd
    refine ⟨?_, pdVar_spec l⟩
    rw [extract_info_dispatch parse d sqrtF df c p hparse, hd]
    simp only [applyOp]
    rw [dfGet_astype_eval df c cells (l.map some) hget hast]

theorem extract_info_statistics_witness :
    extract_info (fun _ => Except.ok ()) (fun q => q) ageTable "Age" "What is the minimum?" =
      "The minimum value in column 'Age' is 10.0." := by
  have h := (extract_info_statistics Unit (fun _ => Except.ok ()) () (fun q => q) ageTable
    "Age" "What is the minimum?" [some "10", some "20", some "30"] [10, 20, 30] rfl
    (by decide) (by decide)).1 (by decide)
  rw [h.1]
  decide
